import Mathlib

/-!
Formal model of the financial dashboard's data pipeline, shallowly embedding
data.py (classification, canonical transaction and budget tables), metrics.py
(KPIs and monthly P&L) and app.py (period slicing, ratio guards, the P&L
statement page and the upload normalizer).  Amounts are modelled as rationals,
NaN cells as Option.none, dataframes as lists of rows.
-/

/-! String primitives mirroring the Python string methods used by the code. -/

/-- Python str.lower, applied characterwise. -/
def pyLower (s : String) : String := ⟨s.data.map Char.toLower⟩

/-- Python str.upper, applied characterwise. -/
def pyUpper (s : String) : String := ⟨s.data.map Char.toUpper⟩

/-- Python str.strip: drop leading and trailing whitespace. -/
def pyStrip (s : String) : String :=
  ⟨((s.data.dropWhile Char.isWhitespace).reverse.dropWhile Char.isWhitespace).reverse⟩

/-- Occurrence test for a pattern inside a character list (Python `pat in s`). -/
def listHasSub (pat : List Char) : List Char → Bool
  | [] => pat.isEmpty
  | c :: rest => pat.isPrefixOf (c :: rest) || listHasSub pat rest

/-- Python `pat in s` on strings. -/
def strHasSub (s pat : String) : Bool := listHasSub pat.data s.data

/-- Python s.startswith(pat). -/
def strStartsWith (s pat : String) : Bool := pat.data.isPrefixOf s.data

/-! Classification (data.py `_infer_group`). -/

/-- Account groups assigned by the classifier. -/
inductive AccountGroup
  | Revenue
  | COGS
  | OPEX
deriving DecidableEq, Repr

/-- data.py `_infer_group`, as a function of the three cell values it reads:
REVENUE/EXPENSES, Short_CLASS and CLASS.  Anything not classified as Revenue,
COGS or OPEX yields none. -/
def infer_group (sideRaw shortRaw classRaw : String) : Option AccountGroup :=
  let side := pyLower (pyStrip sideRaw)
  let short := pyUpper (pyStrip shortRaw)
  let full := pyLower (pyStrip classRaw)
  if side = "revenue" then some AccountGroup.Revenue
  else if side = "expenses" then
    if short = "COS" then some AccountGroup.COGS
    else if short = "G&A" ∨ short = "GA" ∨ short = "GNA" then some AccountGroup.OPEX
    else if strStartsWith full "cost of sales" then some AccountGroup.COGS
    else if strHasSub full "general & administrative"
            ∨ strHasSub full "general and administrative" then some AccountGroup.OPEX
    else none
  else none

/-- Classifier written word for word from the claim: only the side string is
trimmed before case folding, while short_class is only uppercased and
class_text only lowercased. -/
def claim_classify (sideRaw shortRaw classRaw : String) : Option AccountGroup :=
  let side := pyLower (pyStrip sideRaw)
  let short := pyUpper shortRaw
  let full := pyLower classRaw
  if side = "revenue" then some AccountGroup.Revenue
  else if side = "expenses" then
    if short = "COS" then some AccountGroup.COGS
    else if short = "G&A" ∨ short = "GA" ∨ short = "GNA" then some AccountGroup.OPEX
    else if strStartsWith full "cost of sales" then some AccountGroup.COGS
    else if strHasSub full "general & administrative"
            ∨ strHasSub full "general and administrative" then some AccountGroup.OPEX
    else none
  else none

/-- Amended claim classifier: as the claim, but short_class is trimmed before
uppercasing and class_text is trimmed before lowercasing, matching the
str(...).strip() normalisation the code applies to all three cells. -/
def claim_classify_trimmed (sideRaw shortRaw classRaw : String) : Option AccountGroup :=
  let side := pyLower (pyStrip sideRaw)
  let short := pyUpper (pyStrip shortRaw)
  let full := pyLower (pyStrip classRaw)
  if side = "revenue" then some AccountGroup.Revenue
  else if side = "expenses" then
    if short = "COS" then some AccountGroup.COGS
    else if short = "G&A" ∨ short = "GA" ∨ short = "GNA" then some AccountGroup.OPEX
    else if strStartsWith full "cost of sales" then some AccountGroup.COGS
    else if strHasSub full "general & administrative"
            ∨ strHasSub full "general and administrative" then some AccountGroup.OPEX
    else none
  else none

/-! Canonical transaction table (data.py `load_all`, transaction side). -/

/-- Calendar period of a parsed date, as extracted by the pandas dt accessors. -/
structure DateYM where
  year : Int
  month : Nat
deriving DecidableEq, Repr

/-- Raw 01.xlsx transaction row after column normalisation and date parsing.
date is none when pd.to_datetime coerced the cell to NaT; account is none for
a NaN ACCOUNT cell; short_class and class_text are "" when the columns are
absent, as load_all fills them. -/
structure RawTxRow where
  date : Option DateYM
  revenue_expenses : String
  short_class : String
  class_text : String
  account : Option String
  amount : ℚ
deriving DecidableEq, Repr

/-- Transaction row after load_all derived the account_group and signed_amount
columns (none models a NaN cell). -/
structure TxRow where
  date : Option DateYM
  revenue_expenses : String
  short_class : String
  class_text : String
  account : Option String
  amount : ℚ
  account_group : Option AccountGroup
  signed_amount : Option ℚ
deriving DecidableEq, Repr

/-- data.py sign_amt: Revenue rows keep abs(amount), COGS and OPEX rows get
-abs(amount), unclassified rows get NaN. -/
def sign_amt (grp : Option AccountGroup) (amt : ℚ) : Option ℚ :=
  match grp with
  | some AccountGroup.Revenue => some |amt|
  | some AccountGroup.COGS => some (-|amt|)
  | some AccountGroup.OPEX => some (-|amt|)
  | none => none

/-- Row-level derivation step of load_all: account_group from _infer_group,
then signed_amount from sign_amt. -/
def add_derived (r : RawTxRow) : TxRow :=
  let g := infer_group r.revenue_expenses r.short_class r.class_text
  { date := r.date, revenue_expenses := r.revenue_expenses,
    short_class := r.short_class, class_text := r.class_text,
    account := r.account, amount := r.amount,
    account_group := g, signed_amount := sign_amt g r.amount }

/-- Transaction side of load_all: derive the helper columns, then
dropna(subset=["signed_amount"]). -/
def load_all_tx (rows : List RawTxRow) : List TxRow :=
  (rows.map add_derived).filter (fun r => r.signed_amount.isSome)

/-- Year of a transaction row (the year column; none = NaN). -/
def rowYear (r : TxRow) : Option Int := r.date.map DateYM.year

/-- Month of a transaction row (the month column; none = NaN). -/
def rowMonth (r : TxRow) : Option Nat := r.date.map DateYM.month

/-- Combined (year, month) grouping key of a row; none when the date is NaT
(pandas groupby drops such rows). -/
def rowKey (r : TxRow) : Option (Int × Nat) := r.date.map (fun d => (d.year, d.month))

/-- pandas Series.sum over the signed_amount column: NaN cells are skipped,
which is the same as counting them as 0. -/
def nanSum (df : List TxRow) : ℚ := (df.map (fun r => r.signed_amount.getD 0)).sum

/-- Sum of signed_amount over the rows of one account group. -/
def groupSum (df : List TxRow) (g : AccountGroup) : ℚ :=
  nanSum (df.filter (fun r => r.account_group == some g))

-- Quick sanity checks of the classifier on concrete cells.
example : infer_group "Revenue" "" "" = some AccountGroup.Revenue := by decide
example : infer_group " expenses " "cos" "" = some AccountGroup.COGS := by decide
example : infer_group "expenses" "G&A" "" = some AccountGroup.OPEX := by decide
example : infer_group "expenses" "" "Cost of Sales - Fuel" = some AccountGroup.COGS := by decide
example : infer_group "expenses" "" "General & Administrative" = some AccountGroup.OPEX := by decide
example : infer_group "assets" "COS" "" = none := by decide
example : infer_group "expenses" "XYZ" "misc" = none := by decide

/-! Metrics (metrics.py). -/

/-- KPI record returned by metrics.kpis. -/
structure KpiResult where
  revenue : ℚ
  gross_profit : ℚ
  ebit : ℚ
deriving DecidableEq, Repr

/-- metrics.py kpis: Revenue, Gross Profit and EBIT of a slice. -/
def kpis (df : List TxRow) : KpiResult :=
  let rev := groupSum df AccountGroup.Revenue
  let cogs := groupSum df AccountGroup.COGS
  let opex := groupSum df AccountGroup.OPEX
  { revenue := rev, gross_profit := rev + cogs, ebit := rev + cogs + opex }

/-- Ascending lexicographic order on (year, month) keys: the order of the
pivot_table index of monthly_pnl. -/
def keyLe (a b : Int × Nat) : Prop := a.1 < b.1 ∨ (a.1 = b.1 ∧ a.2 ≤ b.2)

instance : DecidableRel keyLe := fun a b => by unfold keyLe; infer_instance

instance : IsTotal (Int × Nat) keyLe := ⟨by intro a b; unfold keyLe; omega⟩

instance : IsTrans (Int × Nat) keyLe := ⟨by intro a b c; unfold keyLe; omega⟩

/-- Distinct (year, month) keys of a slice in ascending pivot-index order;
rows whose date is NaT carry no key and are dropped, as pandas groupby drops
NaN keys. -/
def pnlKeys (df : List TxRow) : List (Int × Nat) :=
  List.insertionSort keyLe (df.filterMap rowKey).dedup

/-- Row of the monthly P&L pivot. -/
structure PnlRow where
  year : Int
  month : Nat
  revenue : ℚ
  cogs : ℚ
  opex : ℚ
  gross_profit : ℚ
  ebit : ℚ
deriving DecidableEq, Repr

/-- Pivot row of one (year, month) group of the slice: the three account
group columns (a group with no rows in the month sums to the fill value 0)
and the derived Gross Profit and EBIT columns. -/
def pnlRow (df : List TxRow) (k : Int × Nat) : PnlRow :=
  let sub := df.filter (fun r => rowKey r == some k)
  let rev := groupSum sub AccountGroup.Revenue
  let cogs := groupSum sub AccountGroup.COGS
  let opex := groupSum sub AccountGroup.OPEX
  { year := k.1, month := k.2, revenue := rev, cogs := cogs, opex := opex,
    gross_profit := rev + cogs, ebit := rev + cogs + opex }

/-- metrics.py monthly_pnl: group signed_amount by (year, month,
account_group), pivot the groups into Revenue/COGS/OPEX columns with missing
groups filled by 0, then derive the Gross Profit and EBIT columns, one row
per key in ascending pivot-index order. -/
def monthly_pnl (df : List TxRow) : List PnlRow :=
  (pnlKeys df).map (pnlRow df)

/-! Period slicing (app.py slice_period). -/

/-- Granularity selector of the P&L statement page. -/
inductive Gran
  | Year
  | Quarter
  | Month
deriving DecidableEq, Repr

/-- Quarter selector. -/
inductive Quarter
  | Q1
  | Q2
  | Q3
  | Q4
deriving DecidableEq, Repr

/-- Month sets of the quarters (the qmap dictionary of slice_period). -/
def qmap : Quarter → List Nat
  | Quarter.Q1 => [1, 2, 3]
  | Quarter.Q2 => [4, 5, 6]
  | Quarter.Q3 => [7, 8, 9]
  | Quarter.Q4 => [10, 11, 12]

/-- app.py slice_period: filter to the requested year, then optionally to a
quarter's month set or to a single month.  The quarter filter runs only at
Quarter granularity with a quarter chosen; the month filter only at Month
granularity with a truthy month (Python treats month 0 and None as falsy). -/
def slice_period (df : List TxRow) (year : Int) (gran : Gran)
    (q : Option Quarter) (m : Option Nat) : List TxRow :=
  let d1 := df.filter (fun r => rowYear r == some year)
  let d2 :=
    match gran, q with
    | Gran.Quarter, some qq =>
        d1.filter (fun r => (rowMonth r).any (fun mm => decide (mm ∈ qmap qq)))
    | _, _ => d1
  let d3 :=
    match gran, m with
    | Gran.Month, some mm =>
        if mm ≠ 0 then d2.filter (fun r => rowMonth r == some mm) else d2
    | _, _ => d2
  d3

/-! Budget table (data.py load_all, budget side). -/

/-- Raw 02_budget.xlsx row after column normalisation and date parsing: year
extracted from the parsed DATE (none when the date is NaT or the column is
missing), the three classification cells, and the BUDGET amount (0.0 when the
column is missing). -/
structure RawBudgetRow where
  year : Option Int
  revenue_expenses : String
  short_class : String
  class_text : String
  budget : ℚ
deriving DecidableEq, Repr

/-- Row of the pre-aggregated budget table produced by load_all. -/
structure BudgetRow where
  year : Int
  account_group : AccountGroup
  budget_amount : ℚ
deriving DecidableEq, Repr

/-- Grouping key of the budget aggregation; none when the row is dropped
(unclassified account_group via dropna, or NaN year dropped by groupby). -/
def budgetKey (r : RawBudgetRow) : Option (Int × AccountGroup) :=
  match r.year, infer_group r.revenue_expenses r.short_class r.class_text with
  | some y, some g => some (y, g)
  | _, _ => none

/-- pandas sorts string group keys alphabetically: COGS < OPEX < Revenue. -/
def groupRank : AccountGroup → Nat
  | AccountGroup.COGS => 0
  | AccountGroup.OPEX => 1
  | AccountGroup.Revenue => 2

/-- Ascending groupby key order on (year, account_group). -/
def bkeyLe (a b : Int × AccountGroup) : Prop :=
  a.1 < b.1 ∨ (a.1 = b.1 ∧ groupRank a.2 ≤ groupRank b.2)

instance : DecidableRel bkeyLe := fun a b => by unfold bkeyLe; infer_instance

instance : IsTotal (Int × AccountGroup) bkeyLe := ⟨by intro a b; unfold bkeyLe; omega⟩

instance : IsTrans (Int × AccountGroup) bkeyLe := ⟨by intro a b c; unfold bkeyLe; omega⟩

/-- Budget side of load_all: classify each raw row with the same rules,
dropna on account_group, then groupby (year, account_group) summing the
budget amounts into budget_amount. -/
def load_all_budget (rows : List RawBudgetRow) : List BudgetRow :=
  let keys := List.insertionSort bkeyLe (rows.filterMap budgetKey).dedup
  keys.map (fun k =>
    { year := k.1, account_group := k.2,
      budget_amount :=
        ((rows.filter (fun r => budgetKey r == some k)).map (fun r => r.budget)).sum })

/-! Guarded ratio computations (app.py Overview and Revenue pages). -/

/-- app.py Overview: budget utilization of the COGS budget,
(actual / total * 100) if total_budget_cogs else 0.0. -/
def budget_util_pct (actual_cogs_spend total_budget_cogs : ℚ) : ℚ :=
  if total_budget_cogs ≠ 0 then actual_cogs_spend / total_budget_cogs * 100 else 0

/-- app.py Overview: COGS budget total, 0.0 when the budget table is empty. -/
def total_budget_cogs (bd : List BudgetRow) : ℚ :=
  ((bd.filter (fun r => r.account_group == AccountGroup.COGS)).map
    (fun r => r.budget_amount)).sum

/-- app.py Overview: overall budget utilization, 0 for an empty budget table
and 0 again when the summed budget is 0. -/
def budget_util (bd : List BudgetRow) (df : List TxRow) : ℚ :=
  if bd.isEmpty then 0
  else
    let total_budget := (bd.map (fun r => r.budget_amount)).sum
    if total_budget ≠ 0 then |nanSum df| / total_budget * 100 else 0

/-- app.py Revenue page: year-over-year change of revenue against the
same-months slice of the prior year, 0 when the prior sum is 0. -/
def yoy_pct (total_rev prev_sum : ℚ) : ℚ :=
  if prev_sum ≠ 0 then (total_rev / prev_sum - 1) * 100 else 0

/-- app.py Revenue page: variance against budget, 0 when the budget is 0. -/
def variance_pct (variance_val budget_val : ℚ) : ℚ :=
  if budget_val ≠ 0 then variance_val / budget_val * 100 else 0

/-- app.py Overview: gross-profit margin, 0 when revenue is 0. -/
def gp_margin (gross_profit total_revenue : ℚ) : ℚ :=
  if total_revenue ≠ 0 then gross_profit / total_revenue * 100 else 0

/-- app.py Overview: net-profit margin, 0 when revenue is 0. -/
def np_margin (net_profit total_revenue : ℚ) : ℚ :=
  if total_revenue ≠ 0 then net_profit / total_revenue * 100 else 0

/-! Statement of Profit & Loss page (app.py, section_rows and totals). -/

/-- app.py section_rows: restrict the slice to one account group, group the
signed amounts by ACCOUNT (dropna=False, so a NaN account is its own line),
sort the lines by amount descending, and return them with their subtotal. -/
def section_rows (df : List TxRow) (g : AccountGroup) :
    List (Option String × ℚ) × ℚ :=
  let part := df.filter (fun r => r.account_group == some g)
  let accounts := (part.map (fun r => r.account)).dedup
  let by_line := accounts.map (fun a =>
    (a, nanSum (part.filter (fun r => r.account == a))))
  let rows := List.insertionSort (fun x y => x.2 ≥ y.2) by_line
  (rows, (rows.map (fun x => x.2)).sum)

/-- app.py P&L statement: rows whose Short_CLASS contains "other income"
case-insensitively. -/
def other_income_rows (df : List TxRow) : List TxRow :=
  df.filter (fun r => strHasSub (pyLower r.short_class) "other income")

/-- app.py P&L statement: Other Income total, a per-ACCOUNT groupby sum with
the default dropna=True (NaN accounts are excluded), summed over the lines. -/
def other_income_total (df : List TxRow) : ℚ :=
  let oth := other_income_rows df
  let accounts := (oth.filterMap (fun r => r.account)).dedup
  (accounts.map (fun a => nanSum (oth.filter (fun r => r.account == some a)))).sum

/-- app.py P&L statement: gross_profit = rev_total - cogs_total, computed on
the signed subtotals exactly as the page does. -/
def pl_gross_profit (s : List TxRow) : ℚ :=
  (section_rows s AccountGroup.Revenue).2 - (section_rows s AccountGroup.COGS).2

/-- app.py P&L statement: net_profit = gross_profit + other_total -
opex_total, computed on the signed subtotals exactly as the page does. -/
def pl_net_profit (s : List TxRow) : ℚ :=
  pl_gross_profit s + other_income_total s - (section_rows s AccountGroup.OPEX).2

/-! Upload handling (app.py _normalize_uploaded_tx and the Append branch). -/

/-- Dataframe with a column list and rows as cell maps, for the schema-level
upload operations. -/
structure Table where
  cols : List String
  rows : List (String → Option ℚ)

/-- Column selection df[keep]: the kept columns, other cells discarded. -/
def restrictRow (keep : List String) (r : String → Option ℚ) : String → Option ℚ :=
  fun c => if c ∈ keep then r c else none

/-- pandas df[keep] on a table. -/
def selectCols (df : Table) (keep : List String) : Table :=
  { cols := keep, rows := df.rows.map (restrictRow keep) }

/-- app.py Append branch: align the uploaded columns to the canonical ones,
then pd.concat([tx[aligned_cols], tx_append], ignore_index=True). -/
def append_upload (tx up : Table) : Table :=
  let aligned := up.cols.filter (fun c => decide (c ∈ tx.cols))
  { cols := aligned,
    rows := (selectCols tx aligned).rows ++ (selectCols up aligned).rows }

/-- Uploaded transaction row as seen by _normalize_uploaded_tx when the file
has AMOUNT and account_group columns but no signed_amount: none models a NaN
or non-numeric cell; account_group is the raw string cell. -/
structure UploadRow where
  amount : Option ℚ
  account_group : Option String
deriving DecidableEq, Repr

/-- app.py _normalize_uploaded_tx: signed_amount =
AMOUNT.where(account_group.eq("Revenue"), -AMOUNT.abs()), followed by
pd.to_numeric(..., errors="coerce").fillna(0).  A null account_group compares
unequal to "Revenue", so such rows get -abs(AMOUNT) and are kept. -/
def derive_signed_amount (r : UploadRow) : ℚ :=
  let s : Option ℚ :=
    if r.account_group = some "Revenue" then r.amount
    else r.amount.map (fun a => -|a|)
  s.getD 0

/-- Signed-amount column the normalizer adds, one value per uploaded row. -/
def normalize_signed_column (rows : List UploadRow) : List ℚ :=
  rows.map derive_signed_amount

/-! Helper lemmas about the derived columns. -/

lemma sign_amt_isSome (g : Option AccountGroup) (a : ℚ) :
    (sign_amt g a).isSome = g.isSome := by
  cases g with
  | none => rfl
  | some gg => cases gg <;> rfl

lemma sign_amt_eq_map (g : Option AccountGroup) (a : ℚ) :
    sign_amt g a
      = g.map (fun gg => if gg = AccountGroup.Revenue then |a| else -|a|) := by
  cases g with
  | none => rfl
  | some gg => cases gg <;> simp [sign_amt]

/-- C1, amended (the original claim omits the strip() the code applies to
short_class and class_text before case conversion): classify returns Revenue
when the trimmed, case-folded side is "revenue"; otherwise, when that side is
"expenses", COGS when the trimmed uppercased short_class is "COS", else OPEX
when it is "G&A", "GA" or "GNA", else COGS when the trimmed lowercased
class_text starts with "cost of sales", else OPEX when it contains
"general & administrative" or "general and administrative", else None; and
None for any other side.  The short_class checks precede the class_text
checks, and the assigned group is a pure function of the three cells. -/
theorem classify_decision_chain :
    (∀ side shortC classT,
      infer_group side shortC classT = claim_classify_trimmed side shortC classT) ∧
    (∀ r : RawTxRow,
      (add_derived r).account_group
        = infer_group r.revenue_expenses r.short_class r.class_text) :=
  ⟨fun _ _ _ => rfl, fun _ => rfl⟩

/-- C1 counterexample: on side "expenses" with short_class " COS" (leading
blank) the code strips the cell and classifies COGS, while the claim's
untrimmed uppercase comparison fails every check and yields None. -/
theorem classify_untrimmed_cex :
    infer_group "expenses" " COS" "" = some AccountGroup.COGS ∧
    claim_classify "expenses" " COS" "" = none := by
  decide

/-- C2: the canonical transaction table keeps exactly the rows whose derived
account_group is non-null (rows with a null group get a NaN signed_amount and
are dropped), and on every derived row signed_amount is +abs(AMOUNT) for
Revenue and -abs(AMOUNT) for COGS and OPEX. -/
theorem signed_amount_invariant :
    (∀ rows : List RawTxRow,
      load_all_tx rows
        = (rows.map add_derived).filter (fun r => r.account_group.isSome)) ∧
    (∀ r : RawTxRow,
      (add_derived r).signed_amount
        = (add_derived r).account_group.map
            (fun g => if g = AccountGroup.Revenue then |r.amount| else -|r.amount|)) := by
  constructor
  · intro rows
    unfold load_all_tx
    apply List.filter_congr
    intro x hx
    rcases List.mem_map.mp hx with ⟨raw, _, rfl⟩
    simp [add_derived, sign_amt_isSome]
  · intro r
    simp [add_derived, sign_amt_eq_map]

/-- C7: every guarded ratio returns 0 on a zero denominator: COGS budget
utilization at zero total budget (also via the empty budget table), overall
budget utilization on an empty table or zero summed budget, year-over-year
change at zero prior sum, variance at zero budget and both margins at zero
revenue.  All are total functions on ℚ, so no ratio can raise or produce
NaN or infinity. -/
theorem zero_denominator_guards :
    (∀ a : ℚ, budget_util_pct a 0 = 0) ∧
    (∀ a : ℚ, budget_util_pct a (total_budget_cogs []) = 0) ∧
    (∀ df : List TxRow, budget_util [] df = 0) ∧
    (∀ (bd : List BudgetRow) (df : List TxRow),
      (bd.map (fun r => r.budget_amount)).sum = 0 → budget_util bd df = 0) ∧
    (∀ t : ℚ, yoy_pct t 0 = 0) ∧
    (∀ v : ℚ, variance_pct v 0 = 0) ∧
    (∀ g : ℚ, gp_margin g 0 = 0) ∧
    (∀ n : ℚ, np_margin n 0 = 0) := by
  refine ⟨?_, ?_, ?_, ?_, ?_, ?_, ?_, ?_⟩
  · intro a; simp [budget_util_pct]
  · intro a; simp [budget_util_pct, total_budget_cogs]
  · intro df; simp [budget_util]
  · intro bd df h
    unfold budget_util
    by_cases hbd : bd.isEmpty <;> simp [hbd, h]
  · intro t; simp [yoy_pct]
  · intro v; simp [variance_pct]
  · intro g; simp [gp_margin]
  · intro n; simp [np_margin]

/-- C7 witness: a one-row budget table whose amounts sum to 0 yields an
overall budget utilization of exactly 0. -/
theorem zero_denominator_guards_witness :
    budget_util [⟨2024, AccountGroup.COGS, 0⟩] [] = 0 :=
  zero_denominator_guards.2.2.2.1 [⟨2024, AccountGroup.COGS, 0⟩] [] (by simp)

/-- C10: the upload normalizer keeps every row (one signed_amount per row),
assigns a Revenue row its raw AMOUNT unchanged and every other row (null or
foreign account_group included) -abs(AMOUNT), and coerces a missing or
non-numeric amount to 0 instead of excluding the row. -/
theorem upload_signed_amount :
    (∀ rows : List UploadRow, (normalize_signed_column rows).length = rows.length) ∧
    (∀ (a : ℚ) (g : Option String),
      derive_signed_amount ⟨some a, g⟩ = if g = some "Revenue" then a else -|a|) ∧
    (∀ g : Option String, derive_signed_amount ⟨none, g⟩ = 0) := by
  refine ⟨fun rows => List.length_map _ _, ?_, ?_⟩
  · intro a g
    unfold derive_signed_amount
    by_cases h : g = some "Revenue" <;> simp [h]
  · intro g
    unfold derive_signed_amount
    by_cases h : g = some "Revenue" <;> simp [h]

/-! Concrete scenario rows for the KPI claim. -/

/-- January 2024 date cell. -/
def jan2024 : Option DateYM := some ⟨2024, 1⟩

/-- Three-row scenario of the spec: revenue 1000, COS expense 400, G&A
expense 200, all January 2024. -/
def kpiScenario : List RawTxRow :=
  [⟨jan2024, "revenue", "", "", some "Sales", 1000⟩,
   ⟨jan2024, "expenses", "COS", "", some "Materials", 400⟩,
   ⟨jan2024, "expenses", "G&A", "", some "Admin", 200⟩]

/-- C3: on every slice, kpis returns Revenue = sum of signed_amount over
Revenue rows, Gross Profit = Revenue plus the COGS sum and EBIT = Gross
Profit plus the OPEX sum; on the concrete three-row January 2024 scenario
(revenue 1000, COS 400, G&A 200) the full pipeline yields Revenue 1000,
Gross Profit 600, EBIT 400. -/
theorem kpis_formulas_and_scenario :
    (∀ df : List TxRow,
      (kpis df).revenue = groupSum df AccountGroup.Revenue ∧
      (kpis df).gross_profit = (kpis df).revenue + groupSum df AccountGroup.COGS ∧
      (kpis df).ebit = (kpis df).gross_profit + groupSum df AccountGroup.OPEX) ∧
    kpis (load_all_tx kpiScenario) = ⟨1000, 600, 400⟩ := by
  constructor
  · intro df
    exact ⟨rfl, rfl, rfl⟩
  · have h1 : infer_group "revenue" "" "" = some AccountGroup.Revenue := by decide
    have h2 : infer_group "expenses" "COS" "" = some AccountGroup.COGS := by decide
    have h3 : infer_group "expenses" "G&A" "" = some AccountGroup.OPEX := by decide
    have e1 : (AccountGroup.COGS == AccountGroup.Revenue) = false := rfl
    have e2 : (AccountGroup.OPEX == AccountGroup.Revenue) = false := rfl
    have e3 : (AccountGroup.Revenue == AccountGroup.COGS) = false := rfl
    have e4 : (AccountGroup.OPEX == AccountGroup.COGS) = false := rfl
    have e5 : (AccountGroup.Revenue == AccountGroup.OPEX) = false := rfl
    have e6 : (AccountGroup.COGS == AccountGroup.OPEX) = false := rfl
    simp only [kpiScenario, load_all_tx, List.map_cons, List.map_nil,
      add_derived, h1, h2, h3, sign_amt]
    norm_num [kpis, groupSum, nanSum, List.filter, e1, e2, e3, e4, e5, e6]

/-- C9: appending an upload whose columns are a subset of the canonical
columns yields original + new rows, introduces no column outside the
canonical schema (indeed keeps exactly the uploaded columns), and places the
existing rows first, then the new rows, both in their original order. -/
theorem append_upload_schema (tx up : Table) (h : ∀ c ∈ up.cols, c ∈ tx.cols) :
    (append_upload tx up).rows.length = tx.rows.length + up.rows.length ∧
    (∀ c ∈ (append_upload tx up).cols, c ∈ tx.cols) ∧
    (append_upload tx up).cols = up.cols ∧
    (append_upload tx up).rows
      = tx.rows.map (restrictRow up.cols) ++ up.rows.map (restrictRow up.cols) := by
  have ha : up.cols.filter (fun c => decide (c ∈ tx.cols)) = up.cols :=
    List.filter_eq_self.mpr (fun c hc => by simpa using h c hc)
  refine ⟨?_, ?_, ?_, ?_⟩
  · simp [append_upload, selectCols]
  · intro c hc
    exact h c (by simpa [append_upload, ha] using hc)
  · simp [append_upload, ha]
  · simp [append_upload, selectCols, ha]

/-- C9 witness: a two-column canonical table with one row, extended by a
one-column upload with two rows. -/
theorem append_upload_schema_witness :
    (append_upload ⟨["A", "B"], [fun _ => some 1]⟩
        ⟨["A"], [fun _ => some 2, fun _ => none]⟩).rows.length
      = (⟨["A", "B"], [fun _ => some 1]⟩ : Table).rows.length
        + (⟨["A"], [fun _ => some 2, fun _ => none]⟩ : Table).rows.length ∧
    (∀ c ∈ (append_upload ⟨["A", "B"], [fun _ => some 1]⟩
        ⟨["A"], [fun _ => some 2, fun _ => none]⟩).cols, c ∈ ["A", "B"]) ∧
    (append_upload ⟨["A", "B"], [fun _ => some 1]⟩
        ⟨["A"], [fun _ => some 2, fun _ => none]⟩).cols = ["A"] ∧
    (append_upload ⟨["A", "B"], [fun _ => some 1]⟩
        ⟨["A"], [fun _ => some 2, fun _ => none]⟩).rows
      = [fun _ => some 1].map (restrictRow ["A"])
        ++ [fun _ => some 2, fun _ => none].map (restrictRow ["A"]) :=
  append_upload_schema ⟨["A", "B"], [fun _ => some 1]⟩
    ⟨["A"], [fun _ => some 2, fun _ => none]⟩
    (by intro c hc; simp at hc ⊢; exact Or.inl hc)

/-- C5 (code bug): on the January 2024 scenario slice (Revenue 1000, COGS
signed -400, OPEX signed -200) the P&L statement page computes
gross_profit = rev_total - cogs_total = 1400 and net_profit = 1600, while the
claimed formulas Revenue subtotal - |COGS subtotal| (= Revenue_total +
COGS_total) and Gross Profit + Other Income - |OPEX subtotal| give 600 and
400, agreeing with metrics.kpis; the page subtracts already-negative signed
subtotals, adding the expense magnitudes instead of subtracting them. -/
theorem pl_statement_sign_bug :
    pl_gross_profit (load_all_tx kpiScenario) = 1400 ∧
    pl_net_profit (load_all_tx kpiScenario) = 1600 ∧
    (section_rows (load_all_tx kpiScenario) AccountGroup.Revenue).2
      + (section_rows (load_all_tx kpiScenario) AccountGroup.COGS).2 = 600 ∧
    (section_rows (load_all_tx kpiScenario) AccountGroup.Revenue).2
      - |(section_rows (load_all_tx kpiScenario) AccountGroup.COGS).2| = 600 := by
  have h1 : infer_group "revenue" "" "" = some AccountGroup.Revenue := by decide
  have h2 : infer_group "expenses" "COS" "" = some AccountGroup.COGS := by decide
  have h3 : infer_group "expenses" "G&A" "" = some AccountGroup.OPEX := by decide
  have e1 : (AccountGroup.COGS == AccountGroup.Revenue) = false := rfl
  have e2 : (AccountGroup.OPEX == AccountGroup.Revenue) = false := rfl
  have e3 : (AccountGroup.Revenue == AccountGroup.COGS) = false := rfl
  have e4 : (AccountGroup.OPEX == AccountGroup.COGS) = false := rfl
  have e5 : (AccountGroup.Revenue == AccountGroup.OPEX) = false := rfl
  have e6 : (AccountGroup.COGS == AccountGroup.OPEX) = false := rfl
  have o1 : strHasSub (pyLower "") "other income" = false := by decide
  have o2 : strHasSub (pyLower "COS") "other income" = false := by decide
  have o3 : strHasSub (pyLower "G&A") "other income" = false := by decide
  simp only [kpiScenario, load_all_tx, List.map_cons, List.map_nil,
    add_derived, h1, h2, h3, sign_amt]
  norm_num [pl_gross_profit, pl_net_profit, section_rows, other_income_total,
    other_income_rows, nanSum, List.filter, List.dedup, List.insertionSort,
    List.orderedInsert, e1, e2, e3, e4, e5, e6, o1, o2, o3]

/-- C6: the budget table aggregates the raw rows by (year, account_group)
with summed amounts: the key pairs of the result are pairwise distinct, each
budget_amount is the sum of the raw BUDGET amounts of its key, and a key pair
appears exactly when some kept raw row carries it, so no raw line-item
survives individually.  No month takes part: load_all never puts a month
column on the budget table, so the claim's month clause is vacuous. -/
theorem budget_aggregation (rows : List RawBudgetRow) :
    ((load_all_budget rows).map (fun b => (b.year, b.account_group))).Nodup ∧
    ((load_all_budget rows).map (fun b => b.budget_amount)
      = ((load_all_budget rows).map (fun b => (b.year, b.account_group))).map
          (fun k =>
            ((rows.filter (fun r => budgetKey r == some k)).map
              (fun r => r.budget)).sum)) ∧
    (∀ (y : Int) (g : AccountGroup),
      (y, g) ∈ (load_all_budget rows).map (fun b => (b.year, b.account_group))
        ↔ some (y, g) ∈ rows.map budgetKey) := by
  have hkeys : (load_all_budget rows).map (fun b => (b.year, b.account_group))
      = List.insertionSort bkeyLe (rows.filterMap budgetKey).dedup := by
    simp [load_all_budget, List.map_map, Function.comp_def]
  refine ⟨?_, ?_, ?_⟩
  · rw [hkeys]
    exact ((List.perm_insertionSort bkeyLe _).nodup_iff).mpr (List.nodup_dedup _)
  · rw [hkeys]
    simp [load_all_budget, List.map_map]
  · intro y g
    rw [hkeys, (List.perm_insertionSort bkeyLe _).mem_iff]
    simp [List.mem_dedup, List.mem_filterMap, List.mem_map]

/-! Helper lemmas for sums over filtered slices. -/

lemma bool_and_or_left (a b c : Bool) : (a && (b || c)) = (a && b || a && c) := by
  cases a <;> cases b <;> cases c <;> rfl

lemma beq_eq_decide_eq {α : Type} [DecidableEq α] [BEq α] [LawfulBEq α] (a b : α) :
    (a == b) = decide (a = b) := by
  by_cases h : a = b <;> simp [h]

lemma nanSum_cons (r : TxRow) (l : List TxRow) :
    nanSum (r :: l) = r.signed_amount.getD 0 + nanSum l := by
  simp [nanSum]

lemma nanSum_filter_or (p q : TxRow → Bool) (df : List TxRow)
    (hpq : ∀ r, ¬(p r = true ∧ q r = true)) :
    nanSum (df.filter (fun r => p r || q r))
      = nanSum (df.filter p) + nanSum (df.filter q) := by
  induction df with
  | nil => simp [nanSum]
  | cons r t ih =>
    cases hp : p r with
    | true =>
      cases hq : q r with
      | true => exact absurd ⟨hp, hq⟩ (hpq r)
      | false =>
        simp [List.filter_cons, hp, hq, nanSum_cons, ih]
        ring
    | false =>
      cases hq : q r with
      | true =>
        simp [List.filter_cons, hp, hq, nanSum_cons, ih]
        ring
      | false =>
        simp [List.filter_cons, hp, hq, nanSum_cons, ih]

lemma nanSum_key_partition (df : List TxRow) (base : TxRow → Bool) :
    ∀ K : List (Int × Nat), K.Nodup →
      (K.map (fun k =>
        nanSum (df.filter (fun r => base r && (rowKey r == some k))))).sum
      = nanSum (df.filter (fun r =>
          base r && decide (∃ k ∈ K, rowKey r = some k))) := by
  intro K
  induction K with
  | nil =>
    intro _
    simp [nanSum]
  | cons k K' ih =>
    intro hnd
    obtain ⟨hk, hnd'⟩ := List.nodup_cons.mp hnd
    have hsplit : ∀ r : TxRow,
        (base r && decide (∃ j ∈ k :: K', rowKey r = some j))
          = ((base r && (rowKey r == some k))
              || (base r && decide (∃ j ∈ K', rowKey r = some j))) := by
      intro r
      have hdec : decide (∃ j ∈ k :: K', rowKey r = some j)
          = (decide (rowKey r = some k)
              || decide (∃ j ∈ K', rowKey r = some j)) := by
        by_cases h1 : rowKey r = some k <;>
          by_cases h2 : ∃ j ∈ K', rowKey r = some j <;>
            simp [List.exists_mem_cons_iff, h1, h2]
      rw [hdec, beq_eq_decide_eq]
      exact bool_and_or_left _ _ _
    have hdisj : ∀ r : TxRow,
        ¬((base r && (rowKey r == some k)) = true
          ∧ (base r && decide (∃ j ∈ K', rowKey r = some j)) = true) := by
      rintro r ⟨h1, h2⟩
      simp only [Bool.and_eq_true] at h1 h2
      have e1 : rowKey r = some k := by simpa using h1.2
      obtain ⟨j, hj, he⟩ := of_decide_eq_true h2.2
      have hjk : j = k := by
        rw [e1] at he
        exact (Option.some_inj.mp he).symm
      exact hk (hjk ▸ hj)
    have e : df.filter (fun r =>
          base r && decide (∃ j ∈ k :: K', rowKey r = some j))
        = df.filter (fun r =>
            (base r && (rowKey r == some k))
              || (base r && decide (∃ j ∈ K', rowKey r = some j))) :=
      List.filter_congr (fun r _ => hsplit r)
    rw [List.map_cons, List.sum_cons, ih hnd', e, nanSum_filter_or _ _ _ hdisj]

lemma pnlKeys_nodup (df : List TxRow) : (pnlKeys df).Nodup :=
  ((List.perm_insertionSort keyLe _).nodup_iff).mpr (List.nodup_dedup _)

lemma mem_pnlKeys (df : List TxRow) (k : Int × Nat) :
    k ∈ pnlKeys df ↔ ∃ r ∈ df, rowKey r = some k := by
  unfold pnlKeys
  rw [(List.perm_insertionSort keyLe _).mem_iff, List.mem_dedup]
  exact List.mem_filterMap

lemma pnl_year_sum (df : List TxRow) (Y : Int) (base : TxRow → Bool) :
    (((pnlKeys df).filter (fun k => k.1 == Y)).map (fun k =>
        nanSum (df.filter (fun r => base r && (rowKey r == some k))))).sum
      = nanSum (df.filter (fun r => base r && (rowYear r == some Y))) := by
  have hnd : ((pnlKeys df).filter (fun k => k.1 == Y)).Nodup :=
    (pnlKeys_nodup df).filter _
  rw [nanSum_key_partition df base _ hnd]
  apply congrArg nanSum
  apply List.filter_congr
  intro r hr
  congr 1
  rw [show (rowYear r == some Y) = decide (rowYear r = some Y) from
    beq_eq_decide_eq _ _]
  apply decide_eq_decide.mpr
  constructor
  · rintro ⟨k, hkK, hkey⟩
    obtain ⟨hkP, hkY⟩ := List.mem_filter.mp hkK
    have h1 : k.1 = Y := by simpa using hkY
    cases hd : r.date with
    | none => simp [rowKey, hd] at hkey
    | some d =>
      have hk2 : (d.year, d.month) = k := by simpa [rowKey, hd] using hkey
      rw [← hk2] at h1
      simpa [rowYear, hd] using h1
  · intro hY
    cases hd : r.date with
    | none => simp [rowYear, hd] at hY
    | some d =>
      have hdY : d.year = Y := by simpa [rowYear, hd] using hY
      refine ⟨(d.year, d.month),
        List.mem_filter.mpr ⟨?_, by simp [hdY]⟩, by simp [rowKey, hd]⟩
      exact (mem_pnlKeys df _).mpr ⟨r, hr, by simp [rowKey, hd]⟩

lemma monthly_pnl_col_sum (df : List TxRow) (Y : Int) (sel : PnlRow → ℚ)
    (g : AccountGroup)
    (hsel : ∀ k, sel (pnlRow df k)
        = groupSum (df.filter (fun r => rowKey r == some k)) g) :
    (((monthly_pnl df).filter (fun p => p.year == Y)).map sel).sum
      = groupSum (df.filter (fun r => rowYear r == some Y)) g := by
  unfold monthly_pnl
  rw [List.filter_map, List.map_map]
  have hfilter : (pnlKeys df).filter ((fun p => p.year == Y) ∘ pnlRow df)
      = (pnlKeys df).filter (fun k => k.1 == Y) :=
    List.filter_congr (fun k _ => rfl)
  rw [hfilter]
  have hmap : ((pnlKeys df).filter (fun k => k.1 == Y)).map (sel ∘ pnlRow df)
      = ((pnlKeys df).filter (fun k => k.1 == Y)).map
          (fun k => nanSum (df.filter (fun r =>
            (r.account_group == some g) && (rowKey r == some k)))) := by
    apply List.map_congr_left
    intro k _
    rw [Function.comp_apply, hsel k]
    simp [groupSum, List.filter_filter]
  rw [hmap, pnl_year_sum df Y (fun r => r.account_group == some g)]
  simp [groupSum, List.filter_filter]

/-- C4: monthly_pnl emits one row per (year, month) key present in the slice,
in ascending (year, month) order with no duplicate key; a group with no rows
in a month contributes 0 to its column; per row Gross Profit = Revenue + COGS
and EBIT = Gross Profit + OPEX; and over the months of any year Y the
Revenue, COGS and OPEX columns sum to the totals kpis computes on the
full-year slice (Revenue, Gross Profit - Revenue and EBIT - Gross Profit
respectively). -/
theorem monthly_pnl_pivot (df : List TxRow) :
    List.Sorted keyLe ((monthly_pnl df).map (fun p => (p.year, p.month))) ∧
    ((monthly_pnl df).map (fun p => (p.year, p.month))).Nodup ∧
    (∀ (y : Int) (mth : Nat),
      (y, mth) ∈ (monthly_pnl df).map (fun p => (p.year, p.month))
        ↔ some (y, mth) ∈ df.map rowKey) ∧
    ((monthly_pnl df).map (fun p => p.gross_profit)
      = (monthly_pnl df).map (fun p => p.revenue + p.cogs)) ∧
    ((monthly_pnl df).map (fun p => p.ebit)
      = (monthly_pnl df).map (fun p => p.gross_profit + p.opex)) ∧
    (∀ Y : Int,
      (((monthly_pnl df).filter (fun p => p.year == Y)).map
          (fun p => p.revenue)).sum
        = (kpis (slice_period df Y Gran.Year none none)).revenue ∧
      (((monthly_pnl df).filter (fun p => p.year == Y)).map
          (fun p => p.cogs)).sum
        = (kpis (slice_period df Y Gran.Year none none)).gross_profit
          - (kpis (slice_period df Y Gran.Year none none)).revenue ∧
      (((monthly_pnl df).filter (fun p => p.year == Y)).map
          (fun p => p.opex)).sum
        = (kpis (slice_period df Y Gran.Year none none)).ebit
          - (kpis (slice_period df Y Gran.Year none none)).gross_profit) := by
  have hkeysmap : (monthly_pnl df).map (fun p => (p.year, p.month)) = pnlKeys df := by
    simp [monthly_pnl, List.map_map, Function.comp_def, pnlRow]
  refine ⟨?_, ?_, ?_, ?_, ?_, ?_⟩
  · rw [hkeysmap]
    unfold pnlKeys
    exact List.sorted_insertionSort keyLe _
  · rw [hkeysmap]
    exact pnlKeys_nodup df
  · intro y mth
    rw [hkeysmap, mem_pnlKeys]
    simp [List.mem_map]
  · unfold monthly_pnl
    rw [List.map_map, List.map_map]
    exact List.map_congr_left (fun k _ => rfl)
  · unfold monthly_pnl
    rw [List.map_map, List.map_map]
    exact List.map_congr_left (fun k _ => rfl)
  · intro Y
    have hslice : slice_period df Y Gran.Year none none
        = df.filter (fun r => rowYear r == some Y) := rfl
    have hrev := monthly_pnl_col_sum df Y (fun p => p.revenue)
      AccountGroup.Revenue (fun k => rfl)
    have hcogs := monthly_pnl_col_sum df Y (fun p => p.cogs)
      AccountGroup.COGS (fun k => rfl)
    have hopex := monthly_pnl_col_sum df Y (fun p => p.opex)
      AccountGroup.OPEX (fun k => rfl)
    refine ⟨?_, ?_, ?_⟩
    · rw [hrev, hslice]
      rfl
    · rw [hcogs, hslice]
      show groupSum _ AccountGroup.COGS
        = (kpis (df.filter (fun r => rowYear r == some Y))).gross_profit
          - (kpis (df.filter (fun r => rowYear r == some Y))).revenue
      simp only [kpis]
      ring
    · rw [hopex, hslice]
      show groupSum _ AccountGroup.OPEX
        = (kpis (df.filter (fun r => rowYear r == some Y))).ebit
          - (kpis (df.filter (fun r => rowYear r == some Y))).gross_profit
      simp only [kpis]
      ring

lemma count_filter_ite {α : Type} [DecidableEq α] (p : α → Bool) (a : α)
    (l : List α) :
    List.count a (l.filter p) = if p a then List.count a l else 0 := by
  by_cases h : p a = true
  · rw [if_pos h, List.count_filter h]
  · rw [if_neg h]
    exact List.count_eq_zero.mpr (fun hm => h (List.mem_filter.mp hm).2)

/-- C8: for any transaction table and year, the four quarter slices are
pairwise disjoint and together form a permutation of the year slice, so no
row of the year slice is double-counted or lost.  The hypothesis records
that every parsed date carries a calendar month in 1..12, as pandas
guarantees. -/
theorem quarter_slices_partition_year (df : List TxRow) (Y : Int)
    (hval : ∀ r ∈ df, ∀ d : DateYM, r.date = some d → 1 ≤ d.month ∧ d.month ≤ 12) :
    (slice_period df Y Gran.Year none none).Perm
      (slice_period df Y Gran.Quarter (some Quarter.Q1) none
        ++ slice_period df Y Gran.Quarter (some Quarter.Q2) none
        ++ slice_period df Y Gran.Quarter (some Quarter.Q3) none
        ++ slice_period df Y Gran.Quarter (some Quarter.Q4) none) ∧
    (∀ q1 q2 : Quarter, q1 ≠ q2 →
      List.Disjoint (slice_period df Y Gran.Quarter (some q1) none)
        (slice_period df Y Gran.Quarter (some q2) none)) := by
  have hq : ∀ qq : Quarter, slice_period df Y Gran.Quarter (some qq) none
      = (df.filter (fun r => rowYear r == some Y)).filter
          (fun r => (rowMonth r).any (fun mm => decide (mm ∈ qmap qq))) :=
    fun qq => rfl
  have hy : slice_period df Y Gran.Year none none
      = df.filter (fun r => rowYear r == some Y) := rfl
  have hcnt : ∀ (qq : Quarter) (x : TxRow),
      List.count x ((df.filter (fun r => rowYear r == some Y)).filter
          (fun r => (rowMonth r).any (fun mm => decide (mm ∈ qmap qq))))
        = if (rowMonth x).any (fun mm => decide (mm ∈ qmap qq)) then
            List.count x (df.filter (fun r => rowYear r == some Y)) else 0 :=
    fun qq x => count_filter_ite _ x _
  constructor
  · rw [hy, hq, hq, hq, hq]
    apply List.perm_iff_count.mpr
    intro x
    rw [List.count_append, List.count_append, List.count_append,
      hcnt Quarter.Q1 x, hcnt Quarter.Q2 x, hcnt Quarter.Q3 x, hcnt Quarter.Q4 x]
    by_cases hx : x ∈ df.filter (fun r => rowYear r == some Y)
    · have hxdf : x ∈ df := (List.mem_filter.mp hx).1
      have hyx : rowYear x = some Y := by
        have h2 := (List.mem_filter.mp hx).2
        rw [beq_eq_decide_eq] at h2
        exact of_decide_eq_true h2
      cases hd : x.date with
      | none => simp [rowYear, hd] at hyx
      | some d =>
        obtain ⟨dy, dm⟩ := d
        have hb := hval x hxdf ⟨dy, dm⟩ hd
        have hm1 : 1 ≤ dm := hb.1
        have hm12 : dm ≤ 12 := hb.2
        have hrm : rowMonth x = some dm := by simp [rowMonth, hd]
        simp only [hrm, Option.any_some]
        interval_cases dm <;> simp [qmap, hyx]
    · have h0 := List.count_eq_zero.mpr hx
      simp [h0]
  · intro q1 q2 hne r h1 h2
    rw [hq] at h1 h2
    have p1 := (List.mem_filter.mp h1).2
    have p2 := (List.mem_filter.mp h2).2
    cases hd : r.date with
    | none => simp [rowMonth, hd] at p1
    | some d =>
      simp [rowMonth, hd] at p1 p2
      cases q1 <;> cases q2 <;> simp [qmap] at p1 p2 <;>
        first
          | exact hne rfl
          | omega

/-- Single-row January 2024-style sample table for the partition witness. -/
def qtrSampleRow : TxRow :=
  { date := some ⟨2024, 2⟩, revenue_expenses := "revenue", short_class := "",
    class_text := "", account := some "Sales", amount := 5,
    account_group := some AccountGroup.Revenue, signed_amount := some 5 }

/-- C8 witness: the partition applied to a concrete one-row table. -/
theorem quarter_slices_partition_year_witness :
    (slice_period [qtrSampleRow] 2024 Gran.Year none none).Perm
      (slice_period [qtrSampleRow] 2024 Gran.Quarter (some Quarter.Q1) none
        ++ slice_period [qtrSampleRow] 2024 Gran.Quarter (some Quarter.Q2) none
        ++ slice_period [qtrSampleRow] 2024 Gran.Quarter (some Quarter.Q3) none
        ++ slice_period [qtrSampleRow] 2024 Gran.Quarter (some Quarter.Q4) none) ∧
    (∀ q1 q2 : Quarter, q1 ≠ q2 →
      List.Disjoint
        (slice_period [qtrSampleRow] 2024 Gran.Quarter (some q1) none)
        (slice_period [qtrSampleRow] 2024 Gran.Quarter (some q2) none)) :=
  quarter_slices_partition_year [qtrSampleRow] 2024 (by
    intro r hr d hd
    rw [List.mem_singleton] at hr
    subst hr
    rw [show qtrSampleRow.date = some ⟨2024, 2⟩ from rfl] at hd
    cases hd
    exact ⟨by decide, by decide⟩)
